import Mathlib

/-!
Verification of the rule-engine grammar front end
(source: src/lib/rule_engine/parser.py).

The Python module defines a ply lexer plus an LALR parser driven by an
explicit precedence/associativity table.  This file gives a shallow
embedding of that front end:

* the operator tables (`op_names`, `reserved_words`, `tokens`,
  `precedence`, the per-token regular expressions of `get_token_regex`)
  are transcribed verbatim;
* the lexer is embedded rule by rule: ply concatenates the token rules
  into one master pattern, trying function rules in definition order and
  then string rules by decreasing pattern length, with the first
  matching alternative winning (Python `re` alternation).  Each `t_...`
  rule becomes one `try...` function below, and `nextTok` tries them in
  ply's order.  The lookbehind `(?<=\S)` of `t_ATTR`, `t_ATTR_SAFE` and
  `t_LBRACKET` is modelled by threading the previous source character
  through the scan;
* the grammar is embedded as a precedence-climbing parser over the
  token stream.  A level-`i` operator (1-based position in the
  `precedence` table, lowest first) gets binding power `2*i`; the right
  operand is parsed with minimum binding power `2*i+1` for
  left/nonassoc groups and `2*i` for right groups, which is the
  standard functional reading of an LALR parser with precedence
  declarations.  Yacc's nonassoc behaviour (an error entry where the
  shift/reduce conflict was) is reproduced by erroring when the
  lookahead right after a freshly reduced nonassoc production has the
  same precedence level.  Each grammar action `p_...` of the source is
  a separate definition invoked by the parser;
* deferred AST nodes (`_DeferredAstNode`) become the inductive `DNode`,
  one constructor per AST class used by the grammar, holding exactly the
  arguments the reduction passes.  The opaque evaluation context that
  the source threads into every node unchanged is dropped (it is the
  same value everywhere and carries no grammar information).

Not modelled (exercised by no claim below): the `t_TIMEDELTA` rule,
whose inner duration pattern lives in an external utilities module (see
`timedelta_regex`); decoding of quoted string/datetime literal values
(`literal_eval` on quoted text) - the corresponding nodes store the
token text; and conversion of numeric literals to IEEE floats - values
are kept as exact rationals (every literal exercised here is a small
integer, where binary64 arithmetic is exact).
-/

namespace RuleEngine

/-- A lexer token: ply token type name plus matched (possibly re-typed)
text value. -/
structure Token where
  ttype : String
  value : String

/-- The value carried by a `FloatExpression` node: `float(literal_eval(s))`
in the source, modelled as an exact rational (or one of the two special
values produced by the `inf` / `nan` reserved words). -/
inductive FloatVal where
  | val (q : Rat)
  | inf
  | nan

/-- Deferred AST nodes: one constructor per `rule_engine.ast` class the
grammar instantiates, with the argument shapes of the reductions in
`parser.py`.  String-valued operand slots hold the canonical operation
identifier (`op_names` value) passed by the reduction. -/
inductive DNode where
  | Statement (expr : DNode)
  | GetAttributeExpression (object : DNode) (name : String) (safe : Bool)
  | TernaryExpression (condition case_true case_false : DNode)
  | ArithmeticExpression (op : String) (left right : DNode)
  | AddExpression (op : String) (left right : DNode)
  | SubtractExpression (op : String) (left right : DNode)
  | BitwiseExpression (op : String) (left right : DNode)
  | BitwiseShiftExpression (op : String) (left right : DNode)
  | ContainsExpression (container member : DNode)
  | ComparisonExpression (op : String) (left right : DNode)
  | ArithmeticComparisonExpression (op : String) (left right : DNode)
  | FuzzyComparisonExpression (op : String) (left right : DNode)
  | LogicExpression (op : String) (left right : DNode)
  | UnaryExpression (op : String) (operand : DNode)
  | SymbolExpression (name : String) (scope : Option String)
  | BooleanExpression (value : Bool)
  | FloatExpression (value : FloatVal)
  | NullExpression
  | StringExpression (value : String)
  | DatetimeExpression (value : String)
  | TimedeltaExpression (value : String)
  | SetExpression (members : List DNode)
  | ArrayExpression (members : List DNode)
  | MappingExpression (pairs : List (DNode × DNode))
  | ComprehensionExpression (result : DNode) (symbol : String)
      (iterable : DNode) (condition : Option DNode)
  | GetItemExpression (container item : DNode) (safe : Bool)
  | GetSliceExpression (container : DNode) (start stop : Option DNode)
      (safe : Bool)

/-- `Parser.op_names`: surface operator text to canonical operation
identifier, transcribed in source order. -/
def op_names : List (String × String) := [
  -- arithmetic operators
  ("+", "ADD"), ("-", "SUB"),
  ("**", "POW"), ("*", "MUL"),
  ("/", "TDIV"), ("//", "FDIV"), ("%", "MOD"),
  -- bitwise operators
  ("&", "BWAND"), ("|", "BWOR"), ("^", "BWXOR"),
  ("<<", "BWLSH"), (">>", "BWRSH"),
  -- comparison operators
  ("==", "EQ"), ("=~", "EQ_FZM"), ("=~~", "EQ_FZS"),
  ("!=", "NE"), ("!~", "NE_FZM"), ("!~~", "NE_FZS"),
  (">", "GT"), (">=", "GE"),
  ("<", "LT"), ("<=", "LE"),
  -- logical operators
  ("and", "AND"), ("or", "OR"), ("not", "NOT"),
  ("for", "FOR"), ("if", "IF"),
  -- other operators
  (".", "ATTR"),
  ("&.", "ATTR_SAFE"),
  ("in", "IN")
]

/-- `Parser.reserved_words`: literal words re-typed by `t_SYMBOL`. -/
def reserved_words : List (String × String) := [
  ("true", "TRUE"),
  ("false", "FALSE"),
  ("inf", "FLOAT_INF"),
  ("nan", "FLOAT_NAN"),
  ("null", "NULL"),
  ("and", "AND"),
  ("in", "IN"),
  ("or", "OR"),
  ("not", "NOT"),
  ("for", "FOR"),
  ("if", "IF")
]

/-- `Parser.tokens`: the fixed punctuation/literal kinds plus the
(set-deduplicated) union of the reserved-word and operator type names. -/
def tokens : List String :=
  ["DATETIME", "TIMEDELTA", "FLOAT", "STRING", "SYMBOL",
   "LPAREN", "RPAREN", "QMARK", "COLON", "COMMA",
   "LBRACKET", "RBRACKET", "LBRACE", "RBRACE"] ++
  ((reserved_words.map Prod.snd) ++ (op_names.map Prod.snd)).eraseDups

/-- Associativity marker of a `precedence` table row. -/
inductive Assoc where
  | left
  | right
  | nonassoc
deriving DecidableEq

/-- `Parser.precedence`: the 14 precedence groups, lowest binding power
first, transcribed in source order. -/
def precedence : List (Assoc × List String) := [
  (.left,     ["OR"]),
  (.left,     ["AND"]),
  (.right,    ["NOT"]),
  (.left,     ["BWOR"]),
  (.left,     ["BWXOR"]),
  (.left,     ["BWAND"]),
  (.right,    ["QMARK", "COLON"]),
  (.nonassoc, ["EQ", "NE", "EQ_FZM", "EQ_FZS", "NE_FZM", "NE_FZS",
               "GE", "GT", "LE", "LT", "IN"]),
  (.left,     ["ADD", "SUB"]),
  (.left,     ["BWLSH", "BWRSH"]),
  (.left,     ["MUL", "TDIV", "FDIV", "MOD"]),
  (.left,     ["POW"]),
  (.right,    ["UMINUS"]),
  (.left,     ["ATTR", "ATTR_SAFE"])
]

/-- One-based precedence level and associativity of a token type, read
off the `precedence` table (level 1 = lowest binding power). -/
def levelOfAux : Nat → List (Assoc × List String) → String → Option (Nat × Assoc)
  | _, [], _ => none
  | i, (a, ts) :: rest, tt =>
    if ts.contains tt then some (i, a) else levelOfAux (i + 1) rest tt

/-- Level lookup over the whole `precedence` table. -/
def levelOf (tt : String) : Option (Nat × Assoc) := levelOfAux 1 precedence tt

/-- The inner duration pattern of `t_TIMEDELTA`.  Modelled from the
spec: the pattern is imported from an external utilities module
(`timedelta_regex` in `rule_engine._utils`) that is not part of the
sources here; the spec only states that timedelta literals are quoted
strings whose inner text must conform to an external duration grammar.
Its exact text is irrelevant to every statement below (it is only ever
compared symbolically). -/
def timedelta_regex : String := "<external duration pattern>"

/-- The `t_<NAME>` lexer-rule attributes of the `Parser` class, in class
definition order: rule name (without the `t_` prefix) paired with the
recognition pattern - the attribute's value for string rules, the
docstring for function rules (which is what `get_token_regex` reads). -/
def t_attrs : List (String × String) := [
  -- string rules (class attribute order)
  ("ignore", " \t"),
  ("BWAND", "\\&"),
  ("BWOR", "\\|"),
  ("BWXOR", "\\^"),
  ("LPAREN", "\\("),
  ("RPAREN", "\\)"),
  ("EQ", "=="),
  ("NE", "!="),
  ("QMARK", "\\?"),
  ("COLON", "\\:"),
  ("ADD", "\\+"),
  ("SUB", "\\-"),
  ("MOD", "\\%"),
  ("COMMA", "\\,"),
  ("LBRACKET", "((?<=\\S)&)?\\["),
  ("RBRACKET", "\\]"),
  ("LBRACE", "\\\x7b"),
  ("RBRACE", "\\\x7d"),
  ("FLOAT", "0(b[01]+|o[0-7]+|x[0-9a-fA-F]+)|[0-9]+(\\.[0-9]*)?([eE][+-]?[0-9]+)?|\\.[0-9]+([eE][+-]?[0-9]+)?"),
  ("ATTR", "(?<=\\S)\\.(?=[a-zA-Z_][a-zA-Z0-9_]*)"),
  ("ATTR_SAFE", "(?<=\\S)&\\.(?=[a-zA-Z_][a-zA-Z0-9_]*)"),
  -- function rules (docstrings), in method definition order
  ("POW", "\\*\\*?"),
  ("FDIV", "\\/\\/?"),
  ("LT", "<([=<])?"),
  ("GT", ">([=>])?"),
  ("EQ_FZS", "=~~?"),
  ("NE_FZS", "!~~?"),
  ("DATETIME", "d(?P<quote>[\"\\\x27])([^\\\\\\n]|(\\\\.))*?(?P=quote)"),
  ("TIMEDELTA", "t(?P<quote>[\"\\\x27])" ++ timedelta_regex ++ "(?P=quote)"),
  ("STRING", "s?(?P<quote>[\"\\\x27])([^\\\\\\n]|(\\\\.))*?(?P=quote)"),
  ("SYMBOL", "\\$?[a-zA-Z_][a-zA-Z0-9_]*"),
  ("newline", "\\n+")
]

/-- `Parser.get_token_regex`: look up the `t_<token_name>` attribute and
return its pattern; `none` models the `ValueError('unknown token: ...')`
raised when no such attribute exists.  (The source's `t_error` method,
which has no docstring and would make the function return Python `None`,
is not a token kind and is left out of `t_attrs`.) -/
def get_token_regex (token_name : String) : Option String :=
  t_attrs.lookup token_name

/-! ## Lexer

Character classes used by the patterns above.  Python `\s` (ASCII) is
the set space, tab, newline, carriage return, vertical tab, form feed;
`\S` is its complement. -/

/-- Python ASCII `\s`. -/
def isSpaceChar (c : Char) : Bool :=
  c == ' ' || c == '\t' || c == '\n' || c == '\x0d' || c == '\x0b' || c == '\x0c'

/-- Decimal digit `[0-9]`. -/
def isDigitChar (c : Char) : Bool := decide ('0' ≤ c) && decide (c ≤ '9')

/-- Binary digit `[01]`. -/
def isBinDigit (c : Char) : Bool := c == '0' || c == '1'

/-- Octal digit `[0-7]`. -/
def isOctDigit (c : Char) : Bool := decide ('0' ≤ c) && decide (c ≤ '7')

/-- Hex digit `[0-9a-fA-F]`. -/
def isHexDigit (c : Char) : Bool :=
  isDigitChar c || (decide ('a' ≤ c) && decide (c ≤ 'f')) ||
  (decide ('A' ≤ c) && decide (c ≤ 'F'))

/-- Symbol start `[a-zA-Z_]`. -/
def isSymStart (c : Char) : Bool :=
  (decide ('a' ≤ c) && decide (c ≤ 'z')) ||
  (decide ('A' ≤ c) && decide (c ≤ 'Z')) || c == '_'

/-- Symbol continuation `[a-zA-Z0-9_]`. -/
def isSymCont (c : Char) : Bool := isSymStart c || isDigitChar c

/-- Quote character of the string-like literal rules: `["']`. -/
def isQuote (c : Char) : Bool := c == '"' || c == '\x27'

/-- String of a character list. -/
def ofChars (cs : List Char) : String := String.mk cs

/-- `t_POW`, docstring `\*\*?`: greedy match, then the action re-types a
single `*` to `MUL`.  Returns (token type, matched text, rest). -/
def tryPOW : List Char → Option (String × String × List Char)
  | '*' :: '*' :: rest => some ("POW", "**", rest)
  | '*' :: rest => some ("MUL", "*", rest)
  | _ => none

/-- `t_FDIV`, docstring `\/\/?`: `//` stays `FDIV`, a single `/` is
re-typed `TDIV`. -/
def tryFDIV : List Char → Option (String × String × List Char)
  | '/' :: '/' :: rest => some ("FDIV", "//", rest)
  | '/' :: rest => some ("TDIV", "/", rest)
  | _ => none

/-- `t_LT`, docstring `<([=<])?`: re-typed by matched text to
`LT` / `LE` / `BWLSH`. -/
def tryLT : List Char → Option (String × String × List Char)
  | '<' :: '=' :: rest => some ("LE", "<=", rest)
  | '<' :: '<' :: rest => some ("BWLSH", "<<", rest)
  | '<' :: rest => some ("LT", "<", rest)
  | _ => none

/-- `t_GT`, docstring `>([=>])?`: re-typed to `GT` / `GE` / `BWRSH`. -/
def tryGT : List Char → Option (String × String × List Char)
  | '>' :: '=' :: rest => some ("GE", ">=", rest)
  | '>' :: '>' :: rest => some ("BWRSH", ">>", rest)
  | '>' :: rest => some ("GT", ">", rest)
  | _ => none

/-- `t_EQ_FZS`, docstring `=~~?`: `=~` is re-typed `EQ_FZM`. -/
def tryEQFZS : List Char → Option (String × String × List Char)
  | '=' :: '~' :: '~' :: rest => some ("EQ_FZS", "=~~", rest)
  | '=' :: '~' :: rest => some ("EQ_FZM", "=~", rest)
  | _ => none

/-- `t_NE_FZS`, docstring `!~~?`: `!~` is re-typed `NE_FZM`. -/
def tryNEFZS : List Char → Option (String × String × List Char)
  | '!' :: '~' :: '~' :: rest => some ("NE_FZS", "!~~", rest)
  | '!' :: '~' :: rest => some ("NE_FZM", "!~", rest)
  | _ => none

/-- Body scan of the quoted-literal rules: `([^\\\n]|(\\.))*?` followed
by the opening quote (`(?P=quote)`), non-greedy, so the scan stops at
the first unescaped occurrence of the quote.  Returns the consumed text
(closing quote included) and the rest. -/
def scanQuoted (q : Char) : List Char → Option (List Char × List Char)
  | [] => none
  | c :: cs =>
    if c == q then some ([c], cs)
    else if c == '\n' then none
    else if c == '\\' then
      match cs with
      | [] => none
      | d :: cs' =>
        if d == '\n' then none
        else (scanQuoted q cs').map (fun p => (c :: d :: p.1, p.2))
    else (scanQuoted q cs).map (fun p => (c :: p.1, p.2))

/-- `t_DATETIME`: a `d`-prefixed quoted literal; the action strips the
leading `d` from the value. -/
def tryDATETIME : List Char → Option (String × String × List Char)
  | 'd' :: q :: rest =>
    if isQuote q then
      (scanQuoted q rest).map (fun p => ("DATETIME", ofChars (q :: p.1), p.2))
    else none
  | _ => none

/-- `t_STRING`: an optionally `s`-prefixed quoted literal; the action
strips an `s` prefix from the value. -/
def trySTRING : List Char → Option (String × String × List Char)
  | 's' :: q :: rest =>
    if isQuote q then
      (scanQuoted q rest).map (fun p => ("STRING", ofChars (q :: p.1), p.2))
    else trySTRINGBare ('s' :: q :: rest)
  | cs => trySTRINGBare cs
where
  /-- The empty-prefix branch of `s?`. -/
  trySTRINGBare : List Char → Option (String × String × List Char)
    | q :: rest =>
      if isQuote q then
        (scanQuoted q rest).map (fun p => ("STRING", ofChars (q :: p.1), p.2))
      else none
    | [] => none

/-- `t_SYMBOL` match (`\$?[a-zA-Z_][a-zA-Z0-9_]*`): returns the matched
text and the rest; re-typing and the reserved-future-word check happen
in `nextTok`. -/
def trySYMBOL : List Char → Option (String × List Char)
  | '$' :: c :: rest =>
    if isSymStart c then
      let ds := rest.takeWhile isSymCont
      some (ofChars ('$' :: c :: ds), rest.drop ds.length)
    else none
  | c :: rest =>
    if isSymStart c then
      let ds := rest.takeWhile isSymCont
      some (ofChars (c :: ds), rest.drop ds.length)
    else none
  | [] => none

/-- Optional exponent part `([eE][+-]?[0-9]+)?` of the decimal `FLOAT`
alternatives: returns the consumed text (possibly empty - the group is
skipped when no digit follows) and the rest. -/
def floatExpPart (cs : List Char) : List Char × List Char :=
  match cs with
  | e :: rest =>
    if e == 'e' || e == 'E' then
      match rest with
      | s :: rest' =>
        if s == '+' || s == '-' then
          let ds := rest'.takeWhile isDigitChar
          if ds.isEmpty then ([], cs) else (e :: s :: ds, rest'.drop ds.length)
        else
          let ds := rest.takeWhile isDigitChar
          if ds.isEmpty then ([], cs) else (e :: ds, rest.drop ds.length)
      | [] => ([], cs)
    else ([], cs)
  | [] => ([], cs)

/-- Decimal alternative `[0-9]+(\.[0-9]*)?([eE][+-]?[0-9]+)?` starting
at a digit run `ds` (nonempty). -/
def floatDecimalTail (ds : List Char) (cs : List Char) : List Char × List Char :=
  match cs with
  | '.' :: rest =>
    let fs := rest.takeWhile isDigitChar
    let (es, rest') := floatExpPart (rest.drop fs.length)
    (ds ++ '.' :: fs ++ es, rest')
  | _ =>
    let (es, rest') := floatExpPart cs
    (ds ++ es, rest')

/-- `t_FLOAT`, pattern
`0(b[01]+|o[0-7]+|x[0-9a-fA-F]+)|[0-9]+(\.[0-9]*)?([eE][+-]?[0-9]+)?|\.[0-9]+([eE][+-]?[0-9]+)?`,
with Python-`re` alternation order (first alternative that matches at
the position wins). -/
def tryFLOAT (cs : List Char) : Option (String × String × List Char) :=
  match cs with
  | '0' :: 'b' :: rest =>
    let ds := rest.takeWhile isBinDigit
    if ds.isEmpty then tryFLOATDecimal cs
    else some ("FLOAT", ofChars ('0' :: 'b' :: ds), rest.drop ds.length)
  | '0' :: 'o' :: rest =>
    let ds := rest.takeWhile isOctDigit
    if ds.isEmpty then tryFLOATDecimal cs
    else some ("FLOAT", ofChars ('0' :: 'o' :: ds), rest.drop ds.length)
  | '0' :: 'x' :: rest =>
    let ds := rest.takeWhile isHexDigit
    if ds.isEmpty then tryFLOATDecimal cs
    else some ("FLOAT", ofChars ('0' :: 'x' :: ds), rest.drop ds.length)
  | _ => tryFLOATDecimal cs
where
  /-- Second and third alternatives of `t_FLOAT`. -/
  tryFLOATDecimal (cs : List Char) : Option (String × String × List Char) :=
    match cs with
    | '.' :: rest =>
      let ds := rest.takeWhile isDigitChar
      if ds.isEmpty then none
      else
        let (es, rest') := floatExpPart (rest.drop ds.length)
        some ("FLOAT", ofChars ('.' :: ds ++ es), rest')
    | _ =>
      let ds := cs.takeWhile isDigitChar
      if ds.isEmpty then none
      else
        let (text, rest') := floatDecimalTail ds (cs.drop ds.length)
        some ("FLOAT", ofChars text, rest')

/-- `t_ATTR_SAFE`, pattern `(?<=\S)&\.(?=[a-zA-Z_][a-zA-Z0-9_]*)`:
matches `&.` only when the previous source character exists and is
non-space and the next character starts a symbol (the lookahead is not
consumed). -/
def tryATTRSAFE (prev : Option Char) (cs : List Char) :
    Option (String × String × List Char) :=
  match prev, cs with
  | some p, '&' :: '.' :: d :: rest =>
    if !isSpaceChar p && isSymStart d then some ("ATTR_SAFE", "&.", d :: rest)
    else none
  | _, _ => none

/-- `t_ATTR`, pattern `(?<=\S)\.(?=[a-zA-Z_][a-zA-Z0-9_]*)`. -/
def tryATTR (prev : Option Char) (cs : List Char) :
    Option (String × String × List Char) :=
  match prev, cs with
  | some p, '.' :: d :: rest =>
    if !isSpaceChar p && isSymStart d then some ("ATTR", ".", d :: rest)
    else none
  | _, _ => none

/-- `t_LBRACKET`, pattern `((?<=\S)&)?\[`: the optional `&` only
participates when preceded by a non-space character. -/
def tryLBRACKET (prev : Option Char) (cs : List Char) :
    Option (String × String × List Char) :=
  match cs with
  | '&' :: '[' :: rest =>
    match prev with
    | some p => if !isSpaceChar p then some ("LBRACKET", "&[", rest) else none
    | none => none
  | '[' :: rest => some ("LBRACKET", "[", rest)
  | _ => none

/-- The single-character string rules: character to token type. -/
def singleCharRules : List (Char × String) := [
  ('&', "BWAND"), ('|', "BWOR"), ('^', "BWXOR"), ('(', "LPAREN"),
  (')', "RPAREN"), ('?', "QMARK"), (':', "COLON"), ('+', "ADD"),
  ('-', "SUB"), ('%', "MOD"), (',', "COMMA"), (']', "RBRACKET"),
  ('\x7b', "LBRACE"), ('\x7d', "RBRACE")]

/-- The single-character string rules (and the two-character `t_EQ`,
`t_NE`), which have pairwise disjoint match sets. -/
def trySingle : List Char → Option (String × String × List Char)
  | '=' :: '=' :: rest => some ("EQ", "==", rest)
  | '!' :: '=' :: rest => some ("NE", "!=", rest)
  | c :: rest => (singleCharRules.lookup c).map (fun tt => (tt, ofChars [c], rest))
  | [] => none

/-- `t_SYMBOL`'s re-typing: `self.reserved_words.get(t.value, 'SYMBOL')`. -/
def reservedType (v : String) : String :=
  (reserved_words.lookup v).getD "SYMBOL"

/-- One step of the ply master pattern at a non-ignored position:
function rules in definition order (`t_POW`, `t_FDIV`, `t_LT`, `t_GT`,
`t_EQ_FZS`, `t_NE_FZS`, `t_DATETIME`, `t_STRING`, `t_SYMBOL`), then
string rules by decreasing pattern length (`t_FLOAT`, `t_ATTR_SAFE`,
`t_ATTR`, `t_LBRACKET`, then the short rules).  `prev` is the source
character immediately before the position (for the lookbehinds).
Errors model `RuleSyntaxError`: the reserved-future-word check of
`t_SYMBOL` and the illegal-character error of `t_error`. -/
def nextTok (prev : Option Char) (cs : List Char) :
    Except String (Token × List Char) :=
  match tryPOW cs with
  | some (t, v, r) => .ok (⟨t, v⟩, r)
  | none =>
  match tryFDIV cs with
  | some (t, v, r) => .ok (⟨t, v⟩, r)
  | none =>
  match tryLT cs with
  | some (t, v, r) => .ok (⟨t, v⟩, r)
  | none =>
  match tryGT cs with
  | some (t, v, r) => .ok (⟨t, v⟩, r)
  | none =>
  match tryEQFZS cs with
  | some (t, v, r) => .ok (⟨t, v⟩, r)
  | none =>
  match tryNEFZS cs with
  | some (t, v, r) => .ok (⟨t, v⟩, r)
  | none =>
  match tryDATETIME cs with
  | some (t, v, r) => .ok (⟨t, v⟩, r)
  | none =>
  match trySTRING cs with
  | some (t, v, r) => .ok (⟨t, v⟩, r)
  | none =>
  match trySYMBOL cs with
  | some (v, r) =>
    if v == "elif" || v == "else" || v == "while" then
      .error ("syntax error (the " ++ v ++ " keyword is reserved for future use)")
    else .ok (⟨reservedType v, v⟩, r)
  | none =>
  match tryFLOAT cs with
  | some (t, v, r) => .ok (⟨t, v⟩, r)
  | none =>
  match tryATTRSAFE prev cs with
  | some (t, v, r) => .ok (⟨t, v⟩, r)
  | none =>
  match tryATTR prev cs with
  | some (t, v, r) => .ok (⟨t, v⟩, r)
  | none =>
  match tryLBRACKET prev cs with
  | some (t, v, r) => .ok (⟨t, v⟩, r)
  | none =>
  match trySingle cs with
  | some (t, v, r) => .ok (⟨t, v⟩, r)
  | none =>
  match cs with
  | c :: _ => .error ("syntax error (illegal character " ++ ofChars ['\x27', c, '\x27'] ++ ")")
  | [] => .error "syntax error"

/-- The last character the token's match consumed (the value-stripping
of `t_DATETIME`/`t_STRING` removes a leading character only, so the
last character of the value is the last consumed character). -/
def lastChar (v : String) (dflt : Char) : Char := v.toList.getLastD dflt

/-- The lexer loop: skip `t_ignore` characters and newlines
(`t_newline` only counts lines), otherwise emit the next token, keeping
track of the character immediately before the scan position. -/
def lexLoop : Nat → Option Char → List Char → Except String (List Token)
  | 0, _, _ => .error "syntax error"
  | _ + 1, _, [] => .ok []
  | n + 1, prev, c :: cs =>
    if c == ' ' || c == '\t' || c == '\n' then lexLoop n (some c) cs
    else
      match nextTok prev (c :: cs) with
      | .error e => .error e
      | .ok (tok, rest) => do
        let ts ← lexLoop n (some (lastChar tok.value c)) rest
        .ok (tok :: ts)

/-- Tokenize a source string. -/
def tokenize (s : String) : Except String (List Token) :=
  lexLoop (s.toList.length + 1) none s.toList

/-! ## Numeric literal values

`p_expression_float` does `float(literal_eval(str_val))`; the value is
modelled as an exact rational. -/

/-- Value of one digit character (decimal or hex letters). -/
def digitVal (c : Char) : Nat :=
  if isDigitChar c then c.toNat - '0'.toNat
  else if decide ('a' ≤ c) && decide (c ≤ 'f') then c.toNat - 'a'.toNat + 10
  else if decide ('A' ≤ c) && decide (c ≤ 'F') then c.toNat - 'A'.toNat + 10
  else 0

/-- Digit-list value in base `b`. -/
def natFromDigits (b : Nat) (ds : List Char) : Nat :=
  ds.foldl (fun acc c => acc * b + digitVal c) 0

/-- `literal_eval` (then `float`) on a `t_FLOAT`-shaped literal, as an
exact rational.  `none` models the `SyntaxError` branch (which no
lexer-produced literal actually reaches). -/
def parseFloatLiteral (s : String) : Option Rat :=
  match s.toList with
  | '0' :: 'b' :: ds => if ds.isEmpty || !ds.all isBinDigit then none
      else some (mkRat (natFromDigits 2 ds) 1)
  | '0' :: 'o' :: ds => if ds.isEmpty || !ds.all isOctDigit then none
      else some (mkRat (natFromDigits 8 ds) 1)
  | '0' :: 'x' :: ds => if ds.isEmpty || !ds.all isHexDigit then none
      else some (mkRat (natFromDigits 16 ds) 1)
  | cs => parseDecimal cs
where
  /-- Exponent digits to a signed exponent. -/
  expVal : List Char → Option Int
    | 'e' :: '+' :: ds | 'E' :: '+' :: ds =>
      if ds.isEmpty || !ds.all isDigitChar then none
      else some (natFromDigits 10 ds)
    | 'e' :: '-' :: ds | 'E' :: '-' :: ds =>
      if ds.isEmpty || !ds.all isDigitChar then none
      else some (-(natFromDigits 10 ds : Int))
    | 'e' :: ds | 'E' :: ds =>
      if ds.isEmpty || !ds.all isDigitChar then none
      else some (natFromDigits 10 ds)
    | _ => none
  /-- Mantissa (integer and fraction digits) with exponent applied. -/
  applyExp (m : Nat) (fracLen : Nat) : List Char → Option Rat
    | [] => some (mkRat m (10 ^ fracLen))
    | es =>
      match expVal es with
      | none => none
      | some e =>
        if 0 ≤ e then some (mkRat (m * 10 ^ e.toNat) (10 ^ fracLen))
        else some (mkRat m (10 ^ fracLen * 10 ^ (-e).toNat))
  /-- The decimal alternatives of the `t_FLOAT` pattern. -/
  parseDecimal (cs : List Char) : Option Rat :=
    let is := cs.takeWhile isDigitChar
    match cs.drop is.length with
    | '.' :: rest =>
      let fs := rest.takeWhile isDigitChar
      if is.isEmpty && fs.isEmpty then none
      else applyExp (natFromDigits 10 (is ++ fs)) fs.length (rest.drop fs.length)
    | rest =>
      if is.isEmpty then none
      else applyExp (natFromDigits 10 is) 0 rest

/-! ## Grammar actions

One definition per `p_...` reduction of the source.  Binary reductions
look the canonical operation name up in `op_names` from the operator
token's surface text (`self.op_names[p[2]]`); `none` models the
`KeyError` no grammar-produced operator actually raises. -/

/-- `p_statement_expr`: `statement : expression`. -/
def p_statement_expr (e : DNode) : DNode := .Statement e

/-- `p_expression_getattr`: `object : object ATTR SYMBOL | object
ATTR_SAFE SYMBOL`; the safe flag is `op_names.get(p[2]) == 'ATTR_SAFE'`. -/
def p_expression_getattr (object : DNode) (op : String) (name : String) : DNode :=
  .GetAttributeExpression object name ((op_names.lookup op) == some "ATTR_SAFE")

/-- `p_expression_ternary`. -/
def p_expression_ternary (condition case_true case_false : DNode) : DNode :=
  .TernaryExpression condition case_true case_false

/-- `p_expression_arithmetic` (`MOD MUL FDIV TDIV POW`). -/
def p_expression_arithmetic (op : String) (l r : DNode) : Option DNode :=
  (op_names.lookup op).map (fun nm => .ArithmeticExpression nm l r)

/-- `p_expression_add`. -/
def p_expression_add (op : String) (l r : DNode) : Option DNode :=
  (op_names.lookup op).map (fun nm => .AddExpression nm l r)

/-- `p_expression_sub`. -/
def p_expression_sub (op : String) (l r : DNode) : Option DNode :=
  (op_names.lookup op).map (fun nm => .SubtractExpression nm l r)

/-- `p_expression_bitwise` (`BWAND BWOR BWXOR`). -/
def p_expression_bitwise (op : String) (l r : DNode) : Option DNode :=
  (op_names.lookup op).map (fun nm => .BitwiseExpression nm l r)

/-- `p_expression_bitwise_shift` (`BWLSH BWRSH`). -/
def p_expression_bitwise_shift (op : String) (l r : DNode) : Option DNode :=
  (op_names.lookup op).map (fun nm => .BitwiseShiftExpression nm l r)

/-- `p_expression_contains`, `len(p) == 4` branch
(`expression IN expression`): member is the left operand, container the
right. -/
def p_expression_contains_in (member container : DNode) : DNode :=
  .ContainsExpression container member

/-- `p_expression_contains`, `len(p) == 5` branch
(`expression NOT IN expression`): builds the containment node and
immediately wraps it in a `NOT` unary node. -/
def p_expression_contains_not_in (member container : DNode) : DNode :=
  .UnaryExpression "NOT" (.ContainsExpression container member)

/-- `p_expression_comparison` (`EQ NE`). -/
def p_expression_comparison (op : String) (l r : DNode) : Option DNode :=
  (op_names.lookup op).map (fun nm => .ComparisonExpression nm l r)

/-- `p_expression_arithmetic_comparison` (`GT GE LT LE`). -/
def p_expression_arithmetic_comparison (op : String) (l r : DNode) : Option DNode :=
  (op_names.lookup op).map (fun nm => .ArithmeticComparisonExpression nm l r)

/-- `p_expression_fuzzy_comparison` (`EQ_FZM EQ_FZS NE_FZM NE_FZS`). -/
def p_expression_fuzzy_comparison (op : String) (l r : DNode) : Option DNode :=
  (op_names.lookup op).map (fun nm => .FuzzyComparisonExpression nm l r)

/-- `p_expression_logic` (`AND OR`). -/
def p_expression_logic (op : String) (l r : DNode) : Option DNode :=
  (op_names.lookup op).map (fun nm => .LogicExpression nm l r)

/-- `p_expression_negate`: `expression : NOT expression`. -/
def p_expression_negate (e : DNode) : DNode := .UnaryExpression "NOT" e

/-- The local `names = {'-': 'UMINUS'}` table of `p_expression_uminus`. -/
def uminus_names : List (String × String) := [("-", "UMINUS")]

/-- `p_expression_symbol`: a `$` prefix selects built-in scope and is
stripped from the name. -/
def p_expression_symbol (v : String) : DNode :=
  if v.toList.head? == some '$' then
    .SymbolExpression (ofChars (v.toList.drop 1)) (some "built-in")
  else .SymbolExpression v none

/-- `p_expression_float`: reject a decimal literal with a leading zero
followed by another digit (`re.match('^0[0-9]', str_val)`), then
evaluate the literal. -/
def p_expression_float (v : String) : Except String DNode :=
  if (match v.toList with
      | '0' :: d :: _ => isDigitChar d
      | _ => false) then
    .error ("invalid floating point literal: " ++ v ++
      " (leading zeros in decimal literals are not permitted)")
  else
    match parseFloatLiteral v with
    | some q => .ok (.FloatExpression (.val q))
    | none => .error ("invalid floating point literal: " ++ v)

/-- `p_expression_set`. -/
def p_expression_set (members : List DNode) : DNode := .SetExpression members

/-- `p_expression_array`. -/
def p_expression_array (members : List DNode) : DNode := .ArrayExpression members

/-- `p_expression_array_comprehension`. -/
def p_expression_array_comprehension (result : DNode) (symbol : String)
    (iterable : DNode) (condition : Option DNode) : DNode :=
  .ComprehensionExpression result symbol iterable condition

/-- `p_expression_mapping`. -/
def p_expression_mapping (pairs : List (DNode × DNode)) : DNode :=
  .MappingExpression pairs

/-- `p_expression_getitem`: the safe flag is `p[2] == '&['` (the
LBRACKET token's matched text). -/
def p_expression_getitem (container : DNode) (lbracket : String) (item : DNode) : DNode :=
  .GetItemExpression container item (lbracket == "&[")

/-- A value on the ply production stack as seen by a reduction: either
a deferred node (an `expression`/`object` slot) or the matched text of
a terminal. -/
inductive PVal where
  | node (d : DNode)
  | str (s : String)

/-- Python `x == ':'` on a stack value: only terminal text can equal a
string. -/
def pvalIsColon : PVal → Bool
  | .str s => s == ":"
  | .node _ => false

/-- `p_expression_getslice`, transcribed on the production stack
`pvals = p[1:]` (so `len(p) = pvals.length + 1`):

  container   = p[1]
  safe        = p[2] == '&['
  colon_index = p[1:].index(':')       (ValueError when absent)

then the four `(colon_index, len(p))` cases pick the present/absent
start and stop, and anything else is the
`'invalid get slice expression'` error.  The typed embedding needs the
container/start/stop slots to hold nodes; a non-node slot (which the
grammar never produces, as proven below) is routed to the same error. -/
def p_expression_getslice (pvals : List PVal) : Except String DNode :=
  let lenp := pvals.length + 1
  let safe : Bool :=
    match pvals.get? 1 with
    | some (.str s) => s == "&["
    | _ => false
  let nodeAt : Nat → Option DNode := fun i =>
    match pvals.get? i with
    | some (.node d) => some d
    | _ => none
  match pvals.findIdx? pvalIsColon with
  | none => .error "invalid get slice expression"
  | some colon_index =>
    if colon_index == 2 && lenp == 5 then
      match nodeAt 0 with
      | some container => .ok (.GetSliceExpression container none none safe)
      | none => .error "invalid get slice expression"
    else if colon_index == 2 && lenp == 6 then
      match nodeAt 0, nodeAt 3 with
      | some container, some stop =>
        .ok (.GetSliceExpression container none (some stop) safe)
      | _, _ => .error "invalid get slice expression"
    else if colon_index == 3 && lenp == 6 then
      match nodeAt 0, nodeAt 2 with
      | some container, some start =>
        .ok (.GetSliceExpression container (some start) none safe)
      | _, _ => .error "invalid get slice expression"
    else if colon_index == 3 && lenp == 7 then
      match nodeAt 0, nodeAt 2, nodeAt 4 with
      | some container, some start, some stop =>
        .ok (.GetSliceExpression container (some start) (some stop) safe)
      | _, _, _ => .error "invalid get slice expression"
    else .error "invalid get slice expression"

/-! ## The parser

A precedence-climbing reading of the LALR grammar (see the header
comment): level-`i` operators bind with power `2*i`, right operands are
parsed at `2*i+1` (left / nonassoc) or `2*i` (right), prefix `not` and
unary minus parse their operand at their own level's power (`2*3`,
`2*13`), the ternary's middle expression is bracketed by `?`/`:` and
parsed from power 0, and a nonassoc reduction errors when the next
token sits on the same precedence level (yacc's nonassoc error entry).
Postfix attribute/index/slice chains (level 14, the highest) are folded
into the `object` sub-grammar, exactly as in the source's productions.
All errors raised here are ply's generic `p_error` message. -/

/-- Token types reduced by a binary-operator production. -/
def binaryTokens : List String :=
  ["OR", "AND", "BWOR", "BWXOR", "BWAND",
   "EQ", "NE", "EQ_FZM", "EQ_FZS", "NE_FZM", "NE_FZS",
   "GE", "GT", "LE", "LT", "IN",
   "ADD", "SUB", "BWLSH", "BWRSH",
   "MUL", "TDIV", "FDIV", "MOD", "POW"]

/-- Dispatch a binary reduction to the production handling the token
type, passing the operator token's surface text. -/
def reduceBinary (tt : String) (opText : String) (l r : DNode) : Option DNode :=
  if tt == "MOD" || tt == "MUL" || tt == "FDIV" || tt == "TDIV" || tt == "POW" then
    p_expression_arithmetic opText l r
  else if tt == "ADD" then p_expression_add opText l r
  else if tt == "SUB" then p_expression_sub opText l r
  else if tt == "BWAND" || tt == "BWOR" || tt == "BWXOR" then
    p_expression_bitwise opText l r
  else if tt == "BWLSH" || tt == "BWRSH" then
    p_expression_bitwise_shift opText l r
  else if tt == "IN" then some (p_expression_contains_in l r)
  else if tt == "EQ" || tt == "NE" then p_expression_comparison opText l r
  else if tt == "GT" || tt == "GE" || tt == "LT" || tt == "LE" then
    p_expression_arithmetic_comparison opText l r
  else if tt == "EQ_FZM" || tt == "EQ_FZS" || tt == "NE_FZM" || tt == "NE_FZS" then
    p_expression_fuzzy_comparison opText l r
  else if tt == "AND" || tt == "OR" then p_expression_logic opText l r
  else none

/-- Whether the next token's precedence level equals `lvl` (the
lookahead comparison of yacc's nonassoc error entries). -/
def sameLevelNext (lvl : Nat) : List Token → Bool
  | t :: _ =>
    match levelOf t.ttype with
    | some (l, _) => l == lvl
    | none => false
  | [] => false

mutual

/-- Parse an `expression` whose operators all bind with power at least
`minbp`. -/
def parseExpr : Nat → Nat → List Token → Except String (DNode × List Token)
  | 0, _, _ => .error "syntax error"
  | n + 1, minbp, toks => do
    let (lhs, rest) ← parseHead n toks
    parseLoop n lhs minbp rest

/-- The non-infix start of an expression: prefix `not` / unary minus,
the `expression`-level literals (`FLOAT`, booleans, `inf`, `nan`), or
an `object`. -/
def parseHead : Nat → List Token → Except String (DNode × List Token)
  | 0, _ => .error "syntax error"
  | n + 1, toks =>
    match toks with
    | ⟨"NOT", _⟩ :: rest => do
      let (e, r) ← parseExpr n 6 rest
      .ok (p_expression_negate e, r)
    | ⟨"SUB", v⟩ :: rest => do
      let (e, r) ← parseExpr n 26 rest
      match uminus_names.lookup v with
      | some nm => .ok (.UnaryExpression nm e, r)
      | none => .error "syntax error"
    | ⟨"FLOAT", v⟩ :: rest => do
      let d ← p_expression_float v
      .ok (d, rest)
    | ⟨"TRUE", v⟩ :: rest => .ok (.BooleanExpression (v == "true"), rest)
    | ⟨"FALSE", v⟩ :: rest => .ok (.BooleanExpression (v == "true"), rest)
    | ⟨"FLOAT_NAN", _⟩ :: rest => .ok (.FloatExpression .nan, rest)
    | ⟨"FLOAT_INF", _⟩ :: rest => .ok (.FloatExpression .inf, rest)
    | _ => parseObject n toks

/-- Parse an `object` (a primary plus its postfix chain). -/
def parseObject : Nat → List Token → Except String (DNode × List Token)
  | 0, _ => .error "syntax error"
  | n + 1, toks => do
    let (a, rest) ← parseAtom n toks
    parseChain n a rest

/-- The primary `object` alternatives: symbol, `null`, quoted literals,
parenthesized group, array literal / comprehension, set / mapping
literal. -/
def parseAtom : Nat → List Token → Except String (DNode × List Token)
  | 0, _ => .error "syntax error"
  | n + 1, toks =>
    match toks with
    | ⟨"SYMBOL", v⟩ :: rest => .ok (p_expression_symbol v, rest)
    | ⟨"NULL", _⟩ :: rest => .ok (.NullExpression, rest)
    | ⟨"DATETIME", v⟩ :: rest => .ok (.DatetimeExpression v, rest)
    | ⟨"TIMEDELTA", v⟩ :: rest => .ok (.TimedeltaExpression v, rest)
    | ⟨"STRING", v⟩ :: rest => .ok (.StringExpression v, rest)
    | ⟨"LPAREN", _⟩ :: rest => do
      let (e, r) ← parseExpr n 0 rest
      match r with
      | ⟨"RPAREN", _⟩ :: r' => .ok (e, r')
      | _ => .error "syntax error"
    | ⟨"LBRACKET", _⟩ :: rest =>
      (match rest with
       | ⟨"RBRACKET", _⟩ :: r' => .ok (p_expression_array [], r')
       | _ => do
         let (e, r1) ← parseExpr n 0 rest
         match r1 with
         | ⟨"FOR", _⟩ :: ⟨"SYMBOL", sv⟩ :: ⟨"IN", _⟩ :: r2 => do
           let (it, r3) ← parseExpr n 0 r2
           match r3 with
           | ⟨"IF", _⟩ :: r4 => do
             let (c, r5) ← parseExpr n 0 r4
             match r5 with
             | ⟨"RBRACKET", _⟩ :: r6 =>
               .ok (p_expression_array_comprehension e sv it (some c), r6)
             | _ => .error "syntax error"
           | ⟨"RBRACKET", _⟩ :: r4 =>
             .ok (p_expression_array_comprehension e sv it none, r4)
           | _ => .error "syntax error"
         | _ => do
           let (ms, r2) ← parseMembers n [e] "RBRACKET" r1
           match r2 with
           | ⟨"RBRACKET", _⟩ :: r3 => .ok (p_expression_array ms, r3)
           | _ => .error "syntax error")
    | ⟨"LBRACE", _⟩ :: rest =>
      (match rest with
       | ⟨"RBRACE", _⟩ :: r' => .ok (p_expression_mapping [], r')
       | _ => do
         let (e, r1) ← parseExpr n 0 rest
         match r1 with
         | ⟨"COLON", _⟩ :: r2 => do
           let (v, r3) ← parseExpr n 0 r2
           let (ps, r4) ← parseMapMembers n [(e, v)] r3
           match r4 with
           | ⟨"RBRACE", _⟩ :: r5 => .ok (p_expression_mapping ps, r5)
           | _ => .error "syntax error"
         | _ => do
           let (ms, r2) ← parseMembers n [e] "RBRACE" r1
           match r2 with
           | ⟨"RBRACE", _⟩ :: r3 => .ok (p_expression_set ms, r3)
           | _ => .error "syntax error")
    | _ => .error "syntax error"

/-- `ary_members` continuation (also used for set members): already
parsed members are in `acc`; a comma followed by the closing token is
the trailing-comma production. -/
def parseMembers : Nat → List DNode → String → List Token →
    Except String (List DNode × List Token)
  | 0, _, _, _ => .error "syntax error"
  | n + 1, acc, closer, toks =>
    match toks with
    | ⟨"COMMA", _⟩ :: rest =>
      (match rest with
       | t :: _ =>
         if t.ttype == closer then .ok (acc, rest)
         else do
           let (e, r) ← parseExpr n 0 rest
           parseMembers n (acc ++ [e]) closer r
       | [] => .error "syntax error")
    | _ => .ok (acc, toks)

/-- `map_members` continuation: comma-separated `expression COLON
expression` pairs with an optional trailing comma
(`p_expression_mapping_member` / `p_expression_mapping_members`). -/
def parseMapMembers : Nat → List (DNode × DNode) → List Token →
    Except String (List (DNode × DNode) × List Token)
  | 0, _, _ => .error "syntax error"
  | n + 1, acc, toks =>
    match toks with
    | ⟨"COMMA", _⟩ :: rest =>
      (match rest with
       | ⟨"RBRACE", _⟩ :: _ => .ok (acc, rest)
       | _ => do
         let (k, r1) ← parseExpr n 0 rest
         match r1 with
         | ⟨"COLON", _⟩ :: r2 => do
           let (v, r3) ← parseExpr n 0 r2
           parseMapMembers n (acc ++ [(k, v)]) r3
         | _ => .error "syntax error")
    | _ => .ok (acc, toks)

/-- The postfix chain of an `object`: attribute access
(`object ATTR SYMBOL`, `object ATTR_SAFE SYMBOL`), indexing
(`object LBRACKET expression RBRACKET`) and the four slice productions,
each feeding `p_expression_getslice` the production stack it would see. -/
def parseChain : Nat → DNode → List Token → Except String (DNode × List Token)
  | 0, _, _ => .error "syntax error"
  | n + 1, obj, toks =>
    match toks with
    | ⟨"ATTR", av⟩ :: ⟨"SYMBOL", sv⟩ :: rest =>
      parseChain n (p_expression_getattr obj av sv) rest
    | ⟨"ATTR_SAFE", av⟩ :: ⟨"SYMBOL", sv⟩ :: rest =>
      parseChain n (p_expression_getattr obj av sv) rest
    | ⟨"LBRACKET", lv⟩ :: rest =>
      (match rest with
       | ⟨"COLON", _⟩ :: r1 =>
         (match r1 with
          | ⟨"RBRACKET", _⟩ :: r2 => do
            let d ← p_expression_getslice [.node obj, .str lv, .str ":", .str "]"]
            parseChain n d r2
          | _ => do
            let (e, r2) ← parseExpr n 0 r1
            match r2 with
            | ⟨"RBRACKET", _⟩ :: r3 => do
              let d ← p_expression_getslice
                [.node obj, .str lv, .str ":", .node e, .str "]"]
              parseChain n d r3
            | _ => .error "syntax error")
       | _ => do
         let (e, r1) ← parseExpr n 0 rest
         match r1 with
         | ⟨"RBRACKET", _⟩ :: r2 =>
           parseChain n (p_expression_getitem obj lv e) r2
         | ⟨"COLON", _⟩ :: r2 =>
           (match r2 with
            | ⟨"RBRACKET", _⟩ :: r3 => do
              let d ← p_expression_getslice
                [.node obj, .str lv, .node e, .str ":", .str "]"]
              parseChain n d r3
            | _ => do
              let (e2, r3) ← parseExpr n 0 r2
              match r3 with
              | ⟨"RBRACKET", _⟩ :: r4 => do
                let d ← p_expression_getslice
                  [.node obj, .str lv, .node e, .str ":", .node e2, .str "]"]
                parseChain n d r4
              | _ => .error "syntax error")
         | _ => .error "syntax error")
    | _ => .ok (obj, toks)

/-- The infix loop: consume operators binding at least as tightly as
`minbp` and fold them onto `lhs`. -/
def parseLoop : Nat → DNode → Nat → List Token → Except String (DNode × List Token)
  | 0, _, _, _ => .error "syntax error"
  | n + 1, lhs, minbp, toks =>
    match toks with
    | ⟨"QMARK", _⟩ :: rest =>
      if minbp ≤ 14 then do
        let (case_true, r1) ← parseExpr n 0 rest
        match r1 with
        | ⟨"COLON", _⟩ :: r2 => do
          let (case_false, r3) ← parseExpr n 14 r2
          parseLoop n (p_expression_ternary lhs case_true case_false) minbp r3
        | _ => .error "syntax error"
      else .ok (lhs, toks)
    | ⟨"NOT", _⟩ :: ⟨"IN", _⟩ :: rest =>
      if minbp ≤ 16 then do
        let (rhs, r) ← parseExpr n 17 rest
        if sameLevelNext 8 r then .error "syntax error"
        else parseLoop n (p_expression_contains_not_in lhs rhs) minbp r
      else .ok (lhs, toks)
    | t :: rest =>
      if binaryTokens.contains t.ttype then
        match levelOf t.ttype with
        | some (lvl, assoc) =>
          let lbp := 2 * lvl
          if lbp < minbp then .ok (lhs, toks)
          else do
            let rbp := if assoc = .right then lbp else lbp + 1
            let (rhs, r) ← parseExpr n rbp rest
            match reduceBinary t.ttype t.value lhs rhs with
            | none => .error "syntax error"
            | some node =>
              if assoc = .nonassoc && sameLevelNext lvl r then .error "syntax error"
              else parseLoop n node minbp r
        | none => .error "syntax error"
      else .ok (lhs, toks)
    | [] => .ok (lhs, toks)

end

/-- Parse a token stream into the root `Statement` node
(`p_statement_expr`); leftover tokens are ply's generic syntax error.
The fuel bounds the recursion depth of the mutual parser functions:
every descent either consumes a token or moves to a strictly smaller
sub-problem within a handful of calls, so the literal `1000` is far
beyond what any input considered in this development can reach (the
real parser has no such bound; the fuel is purely the embedding's
termination device). -/
def parseToks (toks : List Token) : Except String DNode := do
  let (e, rest) ← parseExpr 1000 0 toks
  match rest with
  | [] => .ok (p_statement_expr e)
  | _ => .error "syntax error"

/-- `Parser.parse` phase 1: tokenize and reduce to the deferred tree.
(Phase 2, recursively calling each node's `build`, belongs to the AST
collaborators that are out of scope here.) -/
def parse (text : String) : Except String DNode := do
  let toks ← tokenize text
  parseToks toks

/-- Is a parse outcome an error (any raised `RuleSyntaxError`)? -/
def parseFails (text : String) : Bool :=
  match parse text with
  | .error _ => true
  | .ok _ => false

/-- Does a token stream fail to reduce? -/
def parseToksFails (toks : List Token) : Bool :=
  match parseToks toks with
  | .error _ => true
  | .ok _ => false

/-- The comparison / fuzzy-comparison / `in` operator tokens (the
nonassoc precedence group), with their surface spellings. -/
def cmpOpToks : List Token :=
  [⟨"EQ", "=="⟩, ⟨"NE", "!="⟩, ⟨"EQ_FZM", "=~"⟩, ⟨"EQ_FZS", "=~~"⟩,
   ⟨"NE_FZM", "!~"⟩, ⟨"NE_FZS", "!~~"⟩, ⟨"GE", ">="⟩, ⟨"GT", ">"⟩,
   ⟨"LE", "<="⟩, ⟨"LT", "<"⟩, ⟨"IN", "in"⟩]

/-! ## Claims -/

/-- Claim C1: parsing respects the fixed precedence/associativity
table.  For the input `1 + 2 * 3` the resulting tree is ADD with the
MUL node as its right operand; because POW is declared
left-associative, `2**3**2` parses as `(2**3)**2`; and the table's
groups, lowest binding power first, are exactly
or < and < not < `|` < `^` < `&` < ternary < comparisons < `+ -` <
`<< >>` < `* / // %` < `**` < unary minus < attribute access, with POW
in a left-associative group. -/
theorem claim_C1 :
    parse "1 + 2 * 3" =
      .ok (.Statement (.AddExpression "ADD" (.FloatExpression (.val 1))
        (.ArithmeticExpression "MUL" (.FloatExpression (.val 2))
          (.FloatExpression (.val 3))))) ∧
    parse "2**3**2" =
      .ok (.Statement (.ArithmeticExpression "POW"
        (.ArithmeticExpression "POW" (.FloatExpression (.val 2))
          (.FloatExpression (.val 3)))
        (.FloatExpression (.val 2)))) ∧
    precedence.map Prod.snd =
      [["OR"], ["AND"], ["NOT"], ["BWOR"], ["BWXOR"], ["BWAND"],
       ["QMARK", "COLON"],
       ["EQ", "NE", "EQ_FZM", "EQ_FZS", "NE_FZM", "NE_FZS",
        "GE", "GT", "LE", "LT", "IN"],
       ["ADD", "SUB"], ["BWLSH", "BWRSH"], ["MUL", "TDIV", "FDIV", "MOD"],
       ["POW"], ["UMINUS"], ["ATTR", "ATTR_SAFE"]] ∧
    levelOf "POW" = some (12, .left) :=
  ⟨rfl, rfl, rfl, rfl⟩

/-- Claim C2: every binary production maps the surface operator text to
its canonical operation identifier through the fixed `op_names` table
(all 24 binary entries checked), and in particular `a ** b` and `a*b`
reduce to the distinct identifiers POW and MUL. -/
theorem claim_C2 :
    op_names.lookup "+" = some "ADD" ∧
    op_names.lookup "-" = some "SUB" ∧
    op_names.lookup "**" = some "POW" ∧
    op_names.lookup "*" = some "MUL" ∧
    op_names.lookup "/" = some "TDIV" ∧
    op_names.lookup "//" = some "FDIV" ∧
    op_names.lookup "%" = some "MOD" ∧
    op_names.lookup "&" = some "BWAND" ∧
    op_names.lookup "|" = some "BWOR" ∧
    op_names.lookup "^" = some "BWXOR" ∧
    op_names.lookup "<<" = some "BWLSH" ∧
    op_names.lookup ">>" = some "BWRSH" ∧
    op_names.lookup "==" = some "EQ" ∧
    op_names.lookup "!=" = some "NE" ∧
    op_names.lookup ">" = some "GT" ∧
    op_names.lookup ">=" = some "GE" ∧
    op_names.lookup "<" = some "LT" ∧
    op_names.lookup "<=" = some "LE" ∧
    op_names.lookup "=~" = some "EQ_FZM" ∧
    op_names.lookup "=~~" = some "EQ_FZS" ∧
    op_names.lookup "!~" = some "NE_FZM" ∧
    op_names.lookup "!~~" = some "NE_FZS" ∧
    op_names.lookup "and" = some "AND" ∧
    op_names.lookup "or" = some "OR" ∧
    parse "a ** b" =
      .ok (.Statement (.ArithmeticExpression "POW"
        (.SymbolExpression "a" none) (.SymbolExpression "b" none))) ∧
    parse "a*b" =
      .ok (.Statement (.ArithmeticExpression "MUL"
        (.SymbolExpression "a" none) (.SymbolExpression "b" none))) ∧
    "POW" ≠ "MUL" :=
  ⟨rfl, rfl, rfl, rfl, rfl, rfl, rfl, rfl, rfl, rfl, rfl, rfl, rfl, rfl,
   rfl, rfl, rfl, rfl, rfl, rfl, rfl, rfl, rfl, rfl, rfl, rfl, by decide⟩

/-- Claim C3: for all expressions a and b, `a not in b` and
`not a in b` produce structurally identical trees - a `NOT` unary node
whose sole operand is a containment node with container b and member a.
Stated both at the reduction level (the `NOT IN` branch of
`p_expression_contains` equals `p_expression_negate` composed with the
plain `IN` branch, for arbitrary operand nodes) and on a concrete parse
of both surface forms. -/
theorem claim_C3 :
    (∀ member container : DNode,
      p_expression_contains_not_in member container =
        p_expression_negate (p_expression_contains_in member container) ∧
      p_expression_contains_not_in member container =
        .UnaryExpression "NOT" (.ContainsExpression container member)) ∧
    parse "a not in b" = parse "not a in b" ∧
    parse "a not in b" =
      .ok (.Statement (.UnaryExpression "NOT"
        (.ContainsExpression (.SymbolExpression "b" none)
          (.SymbolExpression "a" none)))) :=
  ⟨fun _ _ => ⟨rfl, rfl⟩, rfl, rfl⟩

/-- Claim C4: brace literals disambiguate structurally - empty braces
build an empty mapping (not an empty set), `{1,2,3}` a three-member
set, `{1:2,3:4}` a two-pair mapping - and a trailing comma is accepted
in set, mapping and array literals without changing the node. -/
theorem claim_C4 :
    parse "\x7b\x7d" = .ok (.Statement (.MappingExpression [])) ∧
    parse "\x7b1,2,3\x7d" =
      .ok (.Statement (.SetExpression
        [.FloatExpression (.val 1), .FloatExpression (.val 2),
         .FloatExpression (.val 3)])) ∧
    parse "\x7b1:2,3:4\x7d" =
      .ok (.Statement (.MappingExpression
        [(.FloatExpression (.val 1), .FloatExpression (.val 2)),
         (.FloatExpression (.val 3), .FloatExpression (.val 4))])) ∧
    parse "\x7b1,2,3,\x7d" = parse "\x7b1,2,3\x7d" ∧
    parse "\x7b1:2,3:4,\x7d" = parse "\x7b1:2,3:4\x7d" ∧
    parse "[1,2,]" = parse "[1,2]" ∧
    parse "[1,2]" =
      .ok (.Statement (.ArrayExpression
        [.FloatExpression (.val 1), .FloatExpression (.val 2)])) :=
  ⟨rfl, rfl, rfl, rfl, rfl, rfl, rfl⟩

/-- Claim C5: the decimal literal `007` (leading zero followed by
another digit) raises a syntax error naming the offending literal,
while `0x1F`, `0b101` and `0o17` each lex as a single FLOAT-kind token
and parse into float literal nodes (of values 31, 5 and 15). -/
theorem claim_C5 :
    parse "007" = .error
      "invalid floating point literal: 007 (leading zeros in decimal literals are not permitted)" ∧
    tokenize "0x1F" = .ok [⟨"FLOAT", "0x1F"⟩] ∧
    tokenize "0b101" = .ok [⟨"FLOAT", "0b101"⟩] ∧
    tokenize "0o17" = .ok [⟨"FLOAT", "0o17"⟩] ∧
    parse "0x1F" = .ok (.Statement (.FloatExpression (.val 31))) ∧
    parse "0b101" = .ok (.Statement (.FloatExpression (.val 5))) ∧
    parse "0o17" = .ok (.Statement (.FloatExpression (.val 15))) :=
  ⟨rfl, rfl, rfl, rfl, rfl, rfl, rfl⟩

/-- Claim C6: comparison operators are non-associative - `1 < 2 < 3`
raises a syntax error rather than producing a tree, and the same holds
for every pair of adjacent operators from the nonassoc group
(comparisons, fuzzy comparisons and `in`): all 121 token-stream
combinations `1 op1 2 op2 3` fail to reduce. -/
theorem claim_C6 :
    parseFails "1 < 2 < 3" = true ∧
    (cmpOpToks.all fun a => cmpOpToks.all fun b =>
      parseToksFails
        [⟨"FLOAT", "1"⟩, a, ⟨"FLOAT", "2"⟩, b, ⟨"FLOAT", "3"⟩]) = true :=
  ⟨rfl, rfl⟩

/-- A lookup in an association list none of whose values is `bad`
cannot return `bad`. -/
theorem lookup_ne_of_all {α β : Type} [BEq α] {bad : β} :
    ∀ (l : List (α × β)), (∀ p ∈ l, p.2 ≠ bad) →
      ∀ {c : α} {tt : β}, l.lookup c = some tt → tt ≠ bad := by
  intro l hall
  induction l with
  | nil => intro c tt h; exact Option.noConfusion h
  | cons p ps ih =>
    obtain ⟨k, b⟩ := p
    intro c tt h
    rw [List.lookup] at h
    split at h
    · injection h with h1
      subst h1
      exact hall (k, b) (List.mem_cons_self _ _)
    · exact ih (fun q hq => hall q (List.mem_cons_of_mem _ hq)) h

/-- The `t_POW` rule never yields an `ATTR_SAFE` token. -/
theorem tryPOW_ne {cs : List Char} {t v : String} {r : List Char}
    (h : tryPOW cs = some (t, v, r)) : t ≠ "ATTR_SAFE" := by
  unfold tryPOW at h
  repeat' split at h
  all_goals
    first
      | exact Option.noConfusion h
      | (rw [Option.map_eq_some'] at h
         obtain ⟨a, -, h2⟩ := h
         simp only [Prod.mk.injEq] at h2
         obtain ⟨rfl, -, -⟩ := h2
         decide)
      | (simp only [Option.some.injEq, Prod.mk.injEq] at h
         obtain ⟨rfl, -, -⟩ := h
         decide)

/-- The `t_FDIV` rule never yields an `ATTR_SAFE` token. -/
theorem tryFDIV_ne {cs : List Char} {t v : String} {r : List Char}
    (h : tryFDIV cs = some (t, v, r)) : t ≠ "ATTR_SAFE" := by
  unfold tryFDIV at h
  repeat' split at h
  all_goals
    first
      | exact Option.noConfusion h
      | (rw [Option.map_eq_some'] at h
         obtain ⟨a, -, h2⟩ := h
         simp only [Prod.mk.injEq] at h2
         obtain ⟨rfl, -, -⟩ := h2
         decide)
      | (simp only [Option.some.injEq, Prod.mk.injEq] at h
         obtain ⟨rfl, -, -⟩ := h
         decide)

/-- The `t_LT` rule never yields an `ATTR_SAFE` token. -/
theorem tryLT_ne {cs : List Char} {t v : String} {r : List Char}
    (h : tryLT cs = some (t, v, r)) : t ≠ "ATTR_SAFE" := by
  unfold tryLT at h
  repeat' split at h
  all_goals
    first
      | exact Option.noConfusion h
      | (rw [Option.map_eq_some'] at h
         obtain ⟨a, -, h2⟩ := h
         simp only [Prod.mk.injEq] at h2
         obtain ⟨rfl, -, -⟩ := h2
         decide)
      | (simp only [Option.some.injEq, Prod.mk.injEq] at h
         obtain ⟨rfl, -, -⟩ := h
         decide)

/-- The `t_GT` rule never yields an `ATTR_SAFE` token. -/
theorem tryGT_ne {cs : List Char} {t v : String} {r : List Char}
    (h : tryGT cs = some (t, v, r)) : t ≠ "ATTR_SAFE" := by
  unfold tryGT at h
  repeat' split at h
  all_goals
    first
      | exact Option.noConfusion h
      | (rw [Option.map_eq_some'] at h
         obtain ⟨a, -, h2⟩ := h
         simp only [Prod.mk.injEq] at h2
         obtain ⟨rfl, -, -⟩ := h2
         decide)
      | (simp only [Option.some.injEq, Prod.mk.injEq] at h
         obtain ⟨rfl, -, -⟩ := h
         decide)

/-- The `t_EQ_FZS` rule never yields an `ATTR_SAFE` token. -/
theorem tryEQFZS_ne {cs : List Char} {t v : String} {r : List Char}
    (h : tryEQFZS cs = some (t, v, r)) : t ≠ "ATTR_SAFE" := by
  unfold tryEQFZS at h
  repeat' split at h
  all_goals
    first
      | exact Option.noConfusion h
      | (rw [Option.map_eq_some'] at h
         obtain ⟨a, -, h2⟩ := h
         simp only [Prod.mk.injEq] at h2
         obtain ⟨rfl, -, -⟩ := h2
         decide)
      | (simp only [Option.some.injEq, Prod.mk.injEq] at h
         obtain ⟨rfl, -, -⟩ := h
         decide)

/-- The `t_NE_FZS` rule never yields an `ATTR_SAFE` token. -/
theorem tryNEFZS_ne {cs : List Char} {t v : String} {r : List Char}
    (h : tryNEFZS cs = some (t, v, r)) : t ≠ "ATTR_SAFE" := by
  unfold tryNEFZS at h
  repeat' split at h
  all_goals
    first
      | exact Option.noConfusion h
      | (rw [Option.map_eq_some'] at h
         obtain ⟨a, -, h2⟩ := h
         simp only [Prod.mk.injEq] at h2
         obtain ⟨rfl, -, -⟩ := h2
         decide)
      | (simp only [Option.some.injEq, Prod.mk.injEq] at h
         obtain ⟨rfl, -, -⟩ := h
         decide)

/-- The `t_DATETIME` rule never yields an `ATTR_SAFE` token. -/
theorem tryDATETIME_ne {cs : List Char} {t v : String} {r : List Char}
    (h : tryDATETIME cs = some (t, v, r)) : t ≠ "ATTR_SAFE" := by
  unfold tryDATETIME at h
  repeat' split at h
  all_goals
    first
      | exact Option.noConfusion h
      | (rw [Option.map_eq_some'] at h
         obtain ⟨a, -, h2⟩ := h
         simp only [Prod.mk.injEq] at h2
         obtain ⟨rfl, -, -⟩ := h2
         decide)
      | (simp only [Option.some.injEq, Prod.mk.injEq] at h
         obtain ⟨rfl, -, -⟩ := h
         decide)

/-- The bare branch of the `t_STRING` rule never yields an `ATTR_SAFE`
token. -/
theorem trySTRINGBare_ne {cs : List Char} {t v : String} {r : List Char}
    (h : trySTRING.trySTRINGBare cs = some (t, v, r)) : t ≠ "ATTR_SAFE" := by
  unfold trySTRING.trySTRINGBare at h
  repeat' split at h
  all_goals
    first
      | exact Option.noConfusion h
      | (rw [Option.map_eq_some'] at h
         obtain ⟨a, -, h2⟩ := h
         simp only [Prod.mk.injEq] at h2
         obtain ⟨rfl, -, -⟩ := h2
         decide)
      | (simp only [Option.some.injEq, Prod.mk.injEq] at h
         obtain ⟨rfl, -, -⟩ := h
         decide)

/-- The `t_STRING` rule never yields an `ATTR_SAFE` token. -/
theorem trySTRING_ne {cs : List Char} {t v : String} {r : List Char}
    (h : trySTRING cs = some (t, v, r)) : t ≠ "ATTR_SAFE" := by
  unfold trySTRING at h
  repeat' split at h
  all_goals
    first
      | exact trySTRINGBare_ne h
      | exact Option.noConfusion h
      | (rw [Option.map_eq_some'] at h
         obtain ⟨a, -, h2⟩ := h
         simp only [Prod.mk.injEq] at h2
         obtain ⟨rfl, -, -⟩ := h2
         decide)

/-- The reserved-word re-typing of `t_SYMBOL` never yields the
`ATTR_SAFE` type. -/
theorem reservedType_ne (v : String) : reservedType v ≠ "ATTR_SAFE" := by
  unfold reservedType reserved_words
  simp only [List.lookup]
  repeat' split
  all_goals decide

/-- The decimal branch of the `t_FLOAT` rule never yields an
`ATTR_SAFE` token. -/
theorem tryFLOATDecimal_ne {cs : List Char} {t v : String} {r : List Char}
    (h : tryFLOAT.tryFLOATDecimal cs = some (t, v, r)) : t ≠ "ATTR_SAFE" := by
  unfold tryFLOAT.tryFLOATDecimal at h
  repeat' (first | split at h | simp only [] at h)
  all_goals
    first
      | exact Option.noConfusion h
      | (rw [Option.map_eq_some'] at h
         obtain ⟨a, -, h2⟩ := h
         simp only [Prod.mk.injEq] at h2
         obtain ⟨rfl, -, -⟩ := h2
         decide)
      | (simp only [Option.some.injEq, Prod.mk.injEq] at h
         obtain ⟨rfl, -, -⟩ := h
         decide)

/-- The `t_FLOAT` rule never yields an `ATTR_SAFE` token. -/
theorem tryFLOAT_ne {cs : List Char} {t v : String} {r : List Char}
    (h : tryFLOAT cs = some (t, v, r)) : t ≠ "ATTR_SAFE" := by
  unfold tryFLOAT at h
  repeat' (first | split at h | simp only [] at h)
  all_goals
    first
      | exact tryFLOATDecimal_ne h
      | exact Option.noConfusion h
      | (simp only [Option.some.injEq, Prod.mk.injEq] at h
         obtain ⟨rfl, -, -⟩ := h
         decide)

/-- The `t_ATTR` rule never yields an `ATTR_SAFE` token. -/
theorem tryATTR_ne {prev : Option Char} {cs : List Char} {t v : String}
    {r : List Char} (h : tryATTR prev cs = some (t, v, r)) : t ≠ "ATTR_SAFE" := by
  unfold tryATTR at h
  repeat' split at h
  all_goals
    first
      | exact Option.noConfusion h
      | (rw [Option.map_eq_some'] at h
         obtain ⟨a, -, h2⟩ := h
         simp only [Prod.mk.injEq] at h2
         obtain ⟨rfl, -, -⟩ := h2
         decide)
      | (simp only [Option.some.injEq, Prod.mk.injEq] at h
         obtain ⟨rfl, -, -⟩ := h
         decide)

/-- The `t_LBRACKET` rule never yields an `ATTR_SAFE` token. -/
theorem tryLBRACKET_ne {prev : Option Char} {cs : List Char} {t v : String}
    {r : List Char} (h : tryLBRACKET prev cs = some (t, v, r)) :
    t ≠ "ATTR_SAFE" := by
  unfold tryLBRACKET at h
  repeat' split at h
  all_goals
    first
      | exact Option.noConfusion h
      | (rw [Option.map_eq_some'] at h
         obtain ⟨a, -, h2⟩ := h
         simp only [Prod.mk.injEq] at h2
         obtain ⟨rfl, -, -⟩ := h2
         decide)
      | (simp only [Option.some.injEq, Prod.mk.injEq] at h
         obtain ⟨rfl, -, -⟩ := h
         decide)

/-- The short string rules never yield an `ATTR_SAFE` token. -/
theorem trySingle_ne {cs : List Char} {t v : String} {r : List Char}
    (h : trySingle cs = some (t, v, r)) : t ≠ "ATTR_SAFE" := by
  unfold trySingle at h
  repeat' split at h
  all_goals
    first
      | exact Option.noConfusion h
      | (simp only [Option.some.injEq, Prod.mk.injEq] at h
         obtain ⟨rfl, -, -⟩ := h
         decide)
      | (rw [Option.map_eq_some'] at h
         obtain ⟨a, ha, h2⟩ := h
         simp only [Prod.mk.injEq] at h2
         obtain ⟨rfl, -, -⟩ := h2
         exact lookup_ne_of_all singleCharRules (by decide) ha)

/-- Soundness of the `t_ATTR_SAFE` rule: a match certifies that the
previous source character exists and is non-space and that the matched
`&.` is followed by a symbol-start character. -/
theorem tryATTRSAFE_sound {prev : Option Char} {cs : List Char} {t v : String}
    {r : List Char} (h : tryATTRSAFE prev cs = some (t, v, r)) :
    ∃ p, prev = some p ∧ isSpaceChar p = false ∧
      ∃ d tail, cs = '&' :: '.' :: d :: tail ∧ isSymStart d = true := by
  unfold tryATTRSAFE at h
  split at h
  · rename_i p d tail
    split at h
    · rename_i hcond
      rw [Bool.and_eq_true, Bool.not_eq_true'] at hcond
      exact ⟨p, rfl, hcond.1, d, tail, rfl, hcond.2⟩
    · simp_all
  · simp_all

/-- Only the `t_ATTR_SAFE` rule of the master pattern can emit an
`ATTR_SAFE` token, so any `ATTR_SAFE` emitted by the lexer step was
matched under that rule's lookbehind and lookahead. -/
theorem nextTok_attrsafe {prev : Option Char} {cs : List Char} {tok : Token}
    {rest : List Char} (h : nextTok prev cs = .ok (tok, rest))
    (ht : tok.ttype = "ATTR_SAFE") :
    ∃ p, prev = some p ∧ isSpaceChar p = false ∧
      ∃ d tail, cs = '&' :: '.' :: d :: tail ∧ isSymStart d = true := by
  unfold nextTok at h
  split at h
  · rename_i t v r heq
    injection h with h1
    injection h1 with h2 h3
    subst h2
    exact absurd (by simpa using ht) (tryPOW_ne heq)
  split at h
  · rename_i t v r heq
    injection h with h1
    injection h1 with h2 h3
    subst h2
    exact absurd (by simpa using ht) (tryFDIV_ne heq)
  split at h
  · rename_i t v r heq
    injection h with h1
    injection h1 with h2 h3
    subst h2
    exact absurd (by simpa using ht) (tryLT_ne heq)
  split at h
  · rename_i t v r heq
    injection h with h1
    injection h1 with h2 h3
    subst h2
    exact absurd (by simpa using ht) (tryGT_ne heq)
  split at h
  · rename_i t v r heq
    injection h with h1
    injection h1 with h2 h3
    subst h2
    exact absurd (by simpa using ht) (tryEQFZS_ne heq)
  split at h
  · rename_i t v r heq
    injection h with h1
    injection h1 with h2 h3
    subst h2
    exact absurd (by simpa using ht) (tryNEFZS_ne heq)
  split at h
  · rename_i t v r heq
    injection h with h1
    injection h1 with h2 h3
    subst h2
    exact absurd (by simpa using ht) (tryDATETIME_ne heq)
  split at h
  · rename_i t v r heq
    injection h with h1
    injection h1 with h2 h3
    subst h2
    exact absurd (by simpa using ht) (trySTRING_ne heq)
  split at h
  · rename_i v r heq
    split at h
    · simp_all
    · injection h with h1
      injection h1 with h2 h3
      subst h2
      exact absurd (by simpa using ht) (reservedType_ne v)
  split at h
  · rename_i t v r heq
    injection h with h1
    injection h1 with h2 h3
    subst h2
    exact absurd (by simpa using ht) (tryFLOAT_ne heq)
  split at h
  · rename_i t v r heq
    exact tryATTRSAFE_sound heq
  split at h
  · rename_i t v r heq
    injection h with h1
    injection h1 with h2 h3
    subst h2
    exact absurd (by simpa using ht) (tryATTR_ne heq)
  split at h
  · rename_i t v r heq
    injection h with h1
    injection h1 with h2 h3
    subst h2
    exact absurd (by simpa using ht) (tryLBRACKET_ne heq)
  split at h
  · rename_i t v r heq
    injection h with h1
    injection h1 with h2 h3
    subst h2
    exact absurd (by simpa using ht) (trySingle_ne heq)
  split at h <;> simp_all

/-- Claim C7: safe-access variants differ from plain access only in the
safe flag - `a.b` versus `a&.b` and `a[0]` versus `a&[0]` build
attribute-access / index nodes identical except for the flag - and
`&.` is lexed as a safe-attribute operator only when immediately
preceded by a non-space character and followed by a symbol-start
character (final conjunct, for every lexer step; the `a &.b` tokens
show the space-preceded spelling falling back to `&` then `.`). -/
theorem claim_C7 :
    parse "a.b" =
      .ok (.Statement (.GetAttributeExpression (.SymbolExpression "a" none)
        "b" false)) ∧
    parse "a&.b" =
      .ok (.Statement (.GetAttributeExpression (.SymbolExpression "a" none)
        "b" true)) ∧
    parse "a[0]" =
      .ok (.Statement (.GetItemExpression (.SymbolExpression "a" none)
        (.FloatExpression (.val 0)) false)) ∧
    parse "a&[0]" =
      .ok (.Statement (.GetItemExpression (.SymbolExpression "a" none)
        (.FloatExpression (.val 0)) true)) ∧
    tokenize "a &.b" =
      .ok [⟨"SYMBOL", "a"⟩, ⟨"BWAND", "&"⟩, ⟨"ATTR", "."⟩, ⟨"SYMBOL", "b"⟩] ∧
    (∀ (prev : Option Char) (cs : List Char) (tok : Token) (rest : List Char),
      nextTok prev cs = .ok (tok, rest) → tok.ttype = "ATTR_SAFE" →
      ∃ p, prev = some p ∧ isSpaceChar p = false ∧
        ∃ d tail, cs = '&' :: '.' :: d :: tail ∧ isSymStart d = true) :=
  ⟨rfl, rfl, rfl, rfl, rfl, fun _ _ _ _ h ht => nextTok_attrsafe h ht⟩

/-- Witness for claim C7: the last conjunct applied to the concrete
lexer step that recognizes `&.b` after the character `a`. -/
theorem claim_C7_witness :
    ∃ p, (some 'a') = some p ∧ isSpaceChar p = false ∧
      ∃ d tail, ['&', '.', 'b'] = '&' :: '.' :: d :: tail ∧
        isSymStart d = true :=
  claim_C7.2.2.2.2.2 (some 'a') ['&', '.', 'b'] ⟨"ATTR_SAFE", "&."⟩ ['b']
    rfl rfl

/-- Claim C9 counterexample: `MUL` is in the parser's token set, yet
`get_token_regex` has no pattern for it (the source raises
`ValueError('unknown token: MUL')`, modelled as `none`), refuting the
claim that the helper returns the recognition pattern for every token
kind in the token set. -/
theorem claim_C9_counterexample :
    "MUL" ∈ tokens ∧ get_token_regex "MUL" = none :=
  ⟨by decide, rfl⟩

/-- Claim C9, amended: `get_token_regex` returns the exact recognition
pattern for precisely those token kinds that carry a dedicated `t_`
lexer rule (string attribute or docstring of a rule function); for the
19 kinds of the token set produced only by re-typing inside another
rule's action (`MUL`, `TDIV`, `LE`, `BWLSH`, `GE`, `BWRSH`, `EQ_FZM`,
`NE_FZM`) or by the reserved-word lookup of `t_SYMBOL` (`TRUE`,
`FALSE`, `NULL`, `FLOAT_INF`, `FLOAT_NAN`, `AND`, `OR`, `NOT`, `IN`,
`FOR`, `IF`), it raises `ValueError` instead. -/
theorem claim_C9_amended :
    (tokens.all fun n =>
      (get_token_regex n).isSome == (t_attrs.map Prod.fst).contains n) = true ∧
    get_token_regex "FLOAT" =
      some "0(b[01]+|o[0-7]+|x[0-9a-fA-F]+)|[0-9]+(\\.[0-9]*)?([eE][+-]?[0-9]+)?|\\.[0-9]+([eE][+-]?[0-9]+)?" ∧
    get_token_regex "POW" = some "\\*\\*?" ∧
    get_token_regex "FDIV" = some "\\/\\/?" ∧
    get_token_regex "LT" = some "<([=<])?" ∧
    get_token_regex "GT" = some ">([=>])?" ∧
    get_token_regex "EQ_FZS" = some "=~~?" ∧
    get_token_regex "NE_FZS" = some "!~~?" ∧
    get_token_regex "ATTR" = some "(?<=\\S)\\.(?=[a-zA-Z_][a-zA-Z0-9_]*)" ∧
    get_token_regex "ATTR_SAFE" =
      some "(?<=\\S)&\\.(?=[a-zA-Z_][a-zA-Z0-9_]*)" ∧
    get_token_regex "LBRACKET" = some "((?<=\\S)&)?\\[" ∧
    get_token_regex "SYMBOL" = some "\\$?[a-zA-Z_][a-zA-Z0-9_]*" ∧
    get_token_regex "DATETIME" =
      some "d(?P<quote>[\"\\\x27])([^\\\\\\n]|(\\\\.))*?(?P=quote)" ∧
    get_token_regex "STRING" =
      some "s?(?P<quote>[\"\\\x27])([^\\\\\\n]|(\\\\.))*?(?P=quote)" ∧
    get_token_regex "TIMEDELTA" =
      some ("t(?P<quote>[\"\\\x27])" ++ timedelta_regex ++ "(?P=quote)") ∧
    (["MUL", "TDIV", "LE", "BWLSH", "GE", "BWRSH", "EQ_FZM", "NE_FZM",
      "TRUE", "FALSE", "NULL", "FLOAT_INF", "FLOAT_NAN",
      "AND", "OR", "NOT", "IN", "FOR", "IF"].all fun n =>
        tokens.contains n && (get_token_regex n).isNone) = true :=
  ⟨by decide, rfl, rfl, rfl, rfl, rfl, rfl, rfl, rfl, rfl, rfl, rfl, rfl,
   rfl, rfl, by decide⟩

/-- Claim C8: each of the four slice forms builds a slice node with the
correct present/absent bounds. -/
theorem claim_C8 :
    parse "a[:]" =
      .ok (.Statement (.GetSliceExpression (.SymbolExpression "a" none)
        none none false)) ∧
    parse "a[1:]" =
      .ok (.Statement (.GetSliceExpression (.SymbolExpression "a" none)
        (some (.FloatExpression (.val 1))) none false)) ∧
    parse "a[:2]" =
      .ok (.Statement (.GetSliceExpression (.SymbolExpression "a" none)
        none (some (.FloatExpression (.val 2))) false)) ∧
    parse "a[1:2]" =
      .ok (.Statement (.GetSliceExpression (.SymbolExpression "a" none)
        (some (.FloatExpression (.val 1)))
        (some (.FloatExpression (.val 2))) false)) :=
  ⟨rfl, rfl, rfl, rfl⟩

/-- Claim C10: for every token sequence matching one of the four slice
productions - where the `object` and `expression` slots hold deferred
nodes, never the terminal text `':'` - the colon position and
production length computed inside `p_expression_getslice` fall into one
of its four handled cases, so the final
`'invalid get slice expression'` error branch is unreachable.  All four
production shapes are checked for both spellings of the opening
bracket, for arbitrary operand nodes. -/
theorem claim_C10 :
    ∀ container e1 e2 : DNode,
      p_expression_getslice
          [.node container, .str "[", .str ":", .str "]"] =
        .ok (.GetSliceExpression container none none false) ∧
      p_expression_getslice
          [.node container, .str "[", .str ":", .node e2, .str "]"] =
        .ok (.GetSliceExpression container none (some e2) false) ∧
      p_expression_getslice
          [.node container, .str "[", .node e1, .str ":", .str "]"] =
        .ok (.GetSliceExpression container (some e1) none false) ∧
      p_expression_getslice
          [.node container, .str "[", .node e1, .str ":", .node e2, .str "]"] =
        .ok (.GetSliceExpression container (some e1) (some e2) false) ∧
      p_expression_getslice
          [.node container, .str "&[", .str ":", .str "]"] =
        .ok (.GetSliceExpression container none none true) ∧
      p_expression_getslice
          [.node container, .str "&[", .str ":", .node e2, .str "]"] =
        .ok (.GetSliceExpression container none (some e2) true) ∧
      p_expression_getslice
          [.node container, .str "&[", .node e1, .str ":", .str "]"] =
        .ok (.GetSliceExpression container (some e1) none true) ∧
      p_expression_getslice
          [.node container, .str "&[", .node e1, .str ":", .node e2, .str "]"] =
        .ok (.GetSliceExpression container (some e1) (some e2) true) :=
  fun _ _ _ => ⟨rfl, rfl, rfl, rfl, rfl, rfl, rfl, rfl⟩

end RuleEngine
